import Mathlib

/-!
# Stratos-chain event relay (`relay/client/stratoschain_events.go`)

A shallow embedding of the event handlers, the forwarder `postToSP`, the
attribute/address extractor `getP2pAddressFromEvent` and the registrar
`SubscribeToStratosChainEvents`, followed by theorems about them.

Modelling conventions.

* `coretypes.ResultEvent` is reduced to its `Events` map, the only field that the
  handlers branch on. A Go map lookup of an absent key yields the nil slice, so the
  lookup `ResultEvent.get` returns `[]` for an absent key.
* A Go index expression `xs[0]` is bounds checked: on an empty slice the goroutine
  fails with a runtime error. `index0` keeps that: it ends the handler in
  `Outcome.panicked`.
* Calls of `utils.Log`, `utils.ErrorLog`, `utils.DebugLog` inside the handlers write a
  log line and return; they do not influence control flow and are left out of a handler's
  `Outcome`. The log line written by `postToSP` is kept, since it is the only use
  that function makes of the HTTP response.
* Library code that is not part of this file (bech32 codec, amino decoding, the
  configuration singleton, `json.Marshal` of the protobuf messages, `http.Post`,
  `utils.Url.String`) is taken as a parameter (`Chain`, `Downstream`).
  `encoding/hex` is modelled directly.
-/

namespace Relay

/-! ## Data model -/

/-- A byte. -/
abbrev Byte := Fin 256

/-- The binary form of `types.Address`. -/
abbrev Address := List Byte

/-- The bytes of `ed25519.PubKeyEd25519`. -/
abbrev PubKeyEd25519 := List Byte

/-- The part of `coretypes.ResultEvent` the handlers read: `Events map[string][]string`,
as an association list (the first binding of a key is the map's entry). -/
structure ResultEvent where
  Events : List (String × List String)
deriving Repr, DecidableEq

/-- The Go expression `result.Events[key]`: the slice stored at `key`, the nil (empty)
slice when the key is absent. -/
def ResultEvent.get (result : ResultEvent) (key : String) : List String :=
  (result.Events.lookup key).getD []

/-- The collaborators of the handlers that live outside this file. -/
structure Chain where
  /-- The function `types.BechToAddress`; `none` is its error result. -/
  BechToAddress : String → Option Address
  /-- The method `Address.ToBech` (address, prefix); `none` is its error result. -/
  ToBech : Address → String → Option String
  /-- The setting `setting.Config.BlockchainInfo.P2PAddressPrefix`. -/
  P2PAddressPrefix : String
  /-- The call `stratoschain.Cdc.UnmarshalBinaryBare` into an `ed25519.PubKeyEd25519`. -/
  UnmarshalBinaryBare : List Byte → Option PubKeyEd25519
  /-- The constant `sdkTypes.BondStatusBonded`. -/
  BondStatusBonded : String

/-- The values handed to `postToSP`: the `protos` request messages built by the handlers
(with the fields the handlers set) and `VolumeReportedReq`. -/
inductive Command where
  | ReqActivatedPP (P2PAddress P2PPubkey OzoneLimitChanges TxHash : String)
  | ReqUpdatedStakePP (P2PAddress OzoneLimitChanges IncrStake TxHash : String)
  | ReqUnbondingPP (P2PAddress OzoneLimitChanges UnbondingMatureTime TxHash : String)
  | ReqDeactivatedPP (P2PAddress : String)
  | ReqUpdatedStakeSP (P2PAddress OzoneLimitChanges IncrStake TxHash : String)
  | ReqActivatedSP (P2PAddress TxHash : String)
  | ReqPrepaid (WalletAddress PurchasedUoz TxHash : String)
  | Uploaded (ReporterAddress UploaderAddress FileHash TxHash : String)
  | VolumeReportedReq (Epoch : String)
deriving Repr, DecidableEq

/-- How one run of a handler ends. -/
inductive Outcome where
  /-- The handler returned without calling `postToSP`. -/
  | dropped
  /-- The handler called `postToSP endpoint data` (once) and returned. -/
  | posted (endpoint : String) (data : Command)
  /-- The handler failed with a runtime error (index out of range). -/
  | panicked
deriving Repr, DecidableEq

/-- The Go index expression `xs[0]` followed by the rest of the handler `k`: a runtime
error on an empty slice. -/
def index0 (xs : List String) (k : String → Outcome) : Outcome :=
  match xs with
  | [] => Outcome.panicked
  | x :: _ => k x

/-! ## `encoding/hex` -/

/-- The constant `hextable` of `encoding/hex`. -/
def hextable : List Char := "0123456789abcdef".data

/-- The function `fromHexChar` of `encoding/hex`. -/
def fromHexChar (c : Char) : Option Nat :=
  if '0' ≤ c ∧ c ≤ '9' then some (c.toNat - '0'.toNat)
  else if 'a' ≤ c ∧ c ≤ 'f' then some (c.toNat - 'a'.toNat + 10)
  else if 'A' ≤ c ∧ c ≤ 'F' then some (c.toNat - 'A'.toNat + 10)
  else none

/-- The loop of `hex.Decode`: two digits per byte; `none` for an invalid digit
(`InvalidByteError`) and for an odd number of digits (`ErrLength`). -/
def hexDecode : List Char → Option (List Byte)
  | [] => some []
  | [_] => none
  | a :: b :: rest =>
    match fromHexChar a, fromHexChar b with
    | some x, some y =>
      match hexDecode rest with
      | some bs => some (Fin.ofNat (x * 16 + y) :: bs)
      | none => none
    | _, _ => none

/-- The function `hex.DecodeString`, `none` when it returns an error. -/
def hexDecodeString (s : String) : Option (List Byte) :=
  hexDecode s.data

/-- The function `hex.EncodeToString`: two lower-case digits per byte. -/
def hexEncodeToString (src : List Byte) : String :=
  String.mk (src.flatMap fun v => [hextable.getD (v.val / 16) '0', hextable.getD (v.val % 16) '0'])

/-! ## The attribute extractor -/

/-- The function `getP2pAddressFromEvent`. -/
def getP2pAddressFromEvent (chain : Chain) (result : ResultEvent) (eventName attribName : String) :
    Except String (Address × String) :=
  let attribSlice := result.get (eventName ++ "." ++ attribName)
  match attribSlice with
  | [] => -- len(attribSlice) < 1
    Except.error ("no " ++ attribName ++ " was specified in " ++ eventName ++ " msg from st-chain")
  | v :: _ => -- attribSlice[0]
    match chain.BechToAddress v with
    | none => Except.error "error when trying to convert P2P address to bytes"
    | some p2pAddress =>
      match chain.ToBech p2pAddress chain.P2PAddressPrefix with
      | none => Except.error "error when trying to convert P2P address to bech32"
      | some p2pAddressString => Except.ok (p2pAddress, p2pAddressString)

/-! ## The event handlers -/

/-- The closure returned by `CreateResourceNodeMsgHandler`. -/
def CreateResourceNodeMsgHandler (chain : Chain) (result : ResultEvent) : Outcome :=
  match getP2pAddressFromEvent chain result "create_resource_node" "network_address" with
  | Except.error _ => Outcome.dropped
  | Except.ok (_, p2pAddressString) =>
    let nodePubkeyList := result.get "create_resource_node.pub_key"
    if nodePubkeyList.length < 1 then Outcome.dropped else
    index0 nodePubkeyList fun nodePubkey =>
    match hexDecodeString nodePubkey with
    | none => Outcome.dropped
    | some p2pPubkeyRaw =>
      match chain.UnmarshalBinaryBare p2pPubkeyRaw with
      | none => Outcome.dropped
      | some p2pPubkey =>
        let ozoneLimitChangeStr := result.get "create_resource_node.ozone_limit_changes"
        let txHashList := result.get "tx.hash"
        if txHashList.length < 1 then Outcome.dropped else
        index0 ozoneLimitChangeStr fun ozoneLimitChanges =>
        index0 txHashList fun txHash =>
        Outcome.posted "/pp/activated"
          (Command.ReqActivatedPP p2pAddressString (hexEncodeToString p2pPubkey)
            ozoneLimitChanges txHash)

/-- The closure returned by `UpdateResourceNodeStakeMsgHandler`. -/
def UpdateResourceNodeStakeMsgHandler (chain : Chain) (result : ResultEvent) : Outcome :=
  match getP2pAddressFromEvent chain result "update_resource_node_stake" "network_address" with
  | Except.error _ => Outcome.dropped
  | Except.ok (_, p2pAddressString) =>
    let ozoneLimitChangeStr := result.get "update_resource_node_stake.ozone_limit_changes"
    let incrStakeBoolList := result.get "update_resource_node_stake.incr_stake"
    if incrStakeBoolList.length < 1 then Outcome.dropped else
    let txHashList := result.get "tx.hash"
    if txHashList.length < 1 then Outcome.dropped else
    index0 ozoneLimitChangeStr fun ozoneLimitChanges =>
    index0 incrStakeBoolList fun incrStake =>
    index0 txHashList fun txHash =>
    Outcome.posted "/pp/updatedStake"
      (Command.ReqUpdatedStakePP p2pAddressString ozoneLimitChanges incrStake txHash)

/-- The closure returned by `UnbondingResourceNodeMsgHandler`. -/
def UnbondingResourceNodeMsgHandler (chain : Chain) (result : ResultEvent) : Outcome :=
  match getP2pAddressFromEvent chain result "unbonding_resource_node" "resource_node" with
  | Except.error _ => Outcome.dropped
  | Except.ok (_, p2pAddressString) =>
    let ozoneLimitChange := result.get "unbonding_resource_node.ozone_limit_changes"
    index0 ozoneLimitChange fun ozoneLimitChangeStr =>
    let ubdMatureTime := result.get "unbonding_resource_node.unbonding_mature_time"
    index0 ubdMatureTime fun ubdMatureTimeStr =>
    let txHashList := result.get "tx.hash"
    if txHashList.length < 1 then Outcome.dropped else
    index0 txHashList fun txHash =>
    Outcome.posted "/pp/unbonding"
      (Command.ReqUnbondingPP p2pAddressString ozoneLimitChangeStr ubdMatureTimeStr txHash)

/-- The closure returned by `RemoveResourceNodeMsgHandler`. -/
def RemoveResourceNodeMsgHandler (chain : Chain) (result : ResultEvent) : Outcome :=
  match getP2pAddressFromEvent chain result "remove_resource_node" "resource_node" with
  | Except.error _ => Outcome.dropped
  | Except.ok (_, p2pAddressString) =>
    let deactivatedMsg := Command.ReqDeactivatedPP p2pAddressString
    let txHashList := result.get "tx.hash"
    if txHashList.length < 1 then Outcome.dropped else
    Outcome.posted "/pp/deactivated" deactivatedMsg

/-- The method `CompleteUnbondingResourceNodeMsgHandler`: it returns
`m.RemoveResourceNodeMsgHandler()`. -/
def CompleteUnbondingResourceNodeMsgHandler (chain : Chain) : ResultEvent → Outcome :=
  RemoveResourceNodeMsgHandler chain

/-- The closure returned by `CreateIndexingNodeMsgHandler`: it only logs the event. -/
def CreateIndexingNodeMsgHandler (_chain : Chain) (_result : ResultEvent) : Outcome :=
  Outcome.dropped

/-- The closure returned by `UpdateIndexingNodeStakeMsgHandler`. -/
def UpdateIndexingNodeStakeMsgHandler (chain : Chain) (result : ResultEvent) : Outcome :=
  match getP2pAddressFromEvent chain result "update_indexing_node_stake" "network_address" with
  | Except.error _ => Outcome.dropped
  | Except.ok (_, p2pAddressString) =>
    let ozoneLimitChangeStr := result.get "update_indexing_node_stake.ozone_limit_changes"
    let incrStakeBoolList := result.get "update_indexing_node_stake.incr_stake"
    if incrStakeBoolList.length < 1 then Outcome.dropped else
    let txHashList := result.get "tx.hash"
    if txHashList.length < 1 then Outcome.dropped else
    index0 ozoneLimitChangeStr fun ozoneLimitChanges =>
    index0 incrStakeBoolList fun incrStake =>
    index0 txHashList fun txHash =>
    Outcome.posted "/chain/updatedStake"
      (Command.ReqUpdatedStakeSP p2pAddressString ozoneLimitChanges incrStake txHash)

/-- The closure returned by `UnbondingIndexingNodeMsgHandler`: it only logs the event. -/
def UnbondingIndexingNodeMsgHandler (_chain : Chain) (_result : ResultEvent) : Outcome :=
  Outcome.dropped

/-- The closure returned by `RemoveIndexingNodeMsgHandler`: it only logs the event. -/
def RemoveIndexingNodeMsgHandler (_chain : Chain) (_result : ResultEvent) : Outcome :=
  Outcome.dropped

/-- The method `CompleteUnbondingIndexingNodeMsgHandler`: it returns
`m.RemoveIndexingNodeMsgHandler()`. -/
def CompleteUnbondingIndexingNodeMsgHandler (chain : Chain) : ResultEvent → Outcome :=
  RemoveIndexingNodeMsgHandler chain

/-- The closure returned by `IndexingNodeVoteMsgHandler`. -/
def IndexingNodeVoteMsgHandler (chain : Chain) (result : ResultEvent) : Outcome :=
  match getP2pAddressFromEvent chain result "indexing_node_reg_vote" "candidate_network_address" with
  | Except.error _ => Outcome.dropped
  | Except.ok (_, p2pAddressString) =>
    let candidateStatusList := result.get "indexing_node_reg_vote.candidate_status"
    if candidateStatusList.length < 1 then Outcome.dropped else
    index0 candidateStatusList fun candidateStatus =>
    if candidateStatus ≠ chain.BondStatusBonded then Outcome.dropped else
    let txHashList := result.get "tx.hash"
    if txHashList.length < 1 then Outcome.dropped else
    index0 txHashList fun txHash =>
    Outcome.posted "/chain/activated" (Command.ReqActivatedSP p2pAddressString txHash)

/-- The closure returned by `PrepayMsgHandler`. -/
def PrepayMsgHandler (_chain : Chain) (result : ResultEvent) : Outcome :=
  let reporterList := result.get "Prepay.sender"
  if reporterList.length < 1 then Outcome.dropped else
  let purchasedUozList := result.get "Prepay.purchased"
  if purchasedUozList.length < 1 then Outcome.dropped else
  let txHashList := result.get "tx.hash"
  if txHashList.length < 1 then Outcome.dropped else
  index0 reporterList fun walletAddress =>
  index0 purchasedUozList fun purchasedUoz =>
  index0 txHashList fun txHash =>
  Outcome.posted "/pp/prepaid" (Command.ReqPrepaid walletAddress purchasedUoz txHash)

/-- The closure returned by `FileUploadMsgHandler`. -/
def FileUploadMsgHandler (_chain : Chain) (result : ResultEvent) : Outcome :=
  let reporterAddressList := result.get "FileUpload.reporter"
  if reporterAddressList.length < 1 then Outcome.dropped else
  let uploaderAddressList := result.get "FileUpload.uploader"
  if uploaderAddressList.length < 1 then Outcome.dropped else
  let fileHashList := result.get "FileUpload.file_hash"
  if fileHashList.length < 1 then Outcome.dropped else
  let txHashList := result.get "tx.hash"
  if txHashList.length < 1 then Outcome.dropped else
  index0 reporterAddressList fun reporterAddress =>
  index0 uploaderAddressList fun uploaderAddress =>
  index0 fileHashList fun fileHash =>
  index0 txHashList fun txHash =>
  Outcome.posted "/pp/uploaded"
    (Command.Uploaded reporterAddress uploaderAddress fileHash txHash)

/-- The closure returned by `VolumeReportHandler`. -/
def VolumeReportHandler (_chain : Chain) (result : ResultEvent) : Outcome :=
  let epochList := result.get "volume_report.epoch"
  if epochList.length < 1 then Outcome.dropped else
  index0 epochList fun epoch =>
  Outcome.posted "/volume/reported" (Command.VolumeReportedReq epoch)

/-- The handler methods of `MultiClient`, by name. -/
inductive Handler where
  | CreateResourceNodeMsgHandler
  | UpdateResourceNodeStakeMsgHandler
  | UnbondingResourceNodeMsgHandler
  | RemoveResourceNodeMsgHandler
  | CompleteUnbondingResourceNodeMsgHandler
  | CreateIndexingNodeMsgHandler
  | UpdateIndexingNodeStakeMsgHandler
  | UnbondingIndexingNodeMsgHandler
  | RemoveIndexingNodeMsgHandler
  | CompleteUnbondingIndexingNodeMsgHandler
  | IndexingNodeVoteMsgHandler
  | PrepayMsgHandler
  | FileUploadMsgHandler
  | VolumeReportHandler
deriving Repr, DecidableEq

/-- The closure a handler method returns, applied to an event. -/
def Handler.run (chain : Chain) : Handler → ResultEvent → Outcome
  | Handler.CreateResourceNodeMsgHandler => Relay.CreateResourceNodeMsgHandler chain
  | Handler.UpdateResourceNodeStakeMsgHandler => Relay.UpdateResourceNodeStakeMsgHandler chain
  | Handler.UnbondingResourceNodeMsgHandler => Relay.UnbondingResourceNodeMsgHandler chain
  | Handler.RemoveResourceNodeMsgHandler => Relay.RemoveResourceNodeMsgHandler chain
  | Handler.CompleteUnbondingResourceNodeMsgHandler =>
    Relay.CompleteUnbondingResourceNodeMsgHandler chain
  | Handler.CreateIndexingNodeMsgHandler => Relay.CreateIndexingNodeMsgHandler chain
  | Handler.UpdateIndexingNodeStakeMsgHandler => Relay.UpdateIndexingNodeStakeMsgHandler chain
  | Handler.UnbondingIndexingNodeMsgHandler => Relay.UnbondingIndexingNodeMsgHandler chain
  | Handler.RemoveIndexingNodeMsgHandler => Relay.RemoveIndexingNodeMsgHandler chain
  | Handler.CompleteUnbondingIndexingNodeMsgHandler =>
    Relay.CompleteUnbondingIndexingNodeMsgHandler chain
  | Handler.IndexingNodeVoteMsgHandler => Relay.IndexingNodeVoteMsgHandler chain
  | Handler.PrepayMsgHandler => Relay.PrepayMsgHandler chain
  | Handler.FileUploadMsgHandler => Relay.FileUploadMsgHandler chain
  | Handler.VolumeReportHandler => Relay.VolumeReportHandler chain

/-! ## The forwarder -/

/-- The struct `utils.Url` as `postToSP` fills it. -/
structure Url where
  Scheme : String
  Host : String
  Port : String
  Path : String
deriving Repr, DecidableEq

/-- One call of `http.Post(url, contentType, body)`. -/
structure HttpRequest where
  url : String
  contentType : String
  body : String
deriving Repr, DecidableEq

/-- What `postToSP` reads of an `http.Response`. -/
structure Response where
  StatusCode : Int
  Body : String
deriving Repr, DecidableEq

/-- The log line `utils.Log(endpoint+" endpoint response from SP node", resp.StatusCode,
res["Msg"])`; `msg` is `none` for Go's nil (no `Msg` entry in `res`). -/
structure LogLine where
  text : String
  statusCode : Int
  msg : Option String
deriving Repr, DecidableEq

/-- The collaborators of `postToSP` that live outside this file. -/
structure Downstream where
  /-- The call `json.Marshal` on a `protos` message: the JSON text, or the error's text. -/
  MarshalProto : Command → Except String String
  /-- The setting `setting.Config.SDS.NetworkAddress`. -/
  NetworkAddress : String
  /-- The setting `setting.Config.SDS.ApiPort`. -/
  ApiPort : String
  /-- The method `utils.Url.String` with its four flags. -/
  UrlString : Url → Bool → Bool → Bool → Bool → String
  /-- The call `http.Post`: a response, or the error's text when the request cannot be sent. -/
  Post : HttpRequest → Except String Response
  /-- The statement `json.NewDecoder(resp.Body).Decode(&res)` followed by `res["Msg"]`: the
  entry the decoder left in `res`, `none` when there is none (also when the body does not
  parse). -/
  DecodeMsg : String → Option String

/-- The string encoder of `encoding/json` as `json.Marshal` uses it (HTML escaping on) for
one character: the quote, the backslash, control characters, the three HTML characters and the
two Unicode line separators are escaped, everything else is copied (the encoder of the Go
releases before 1.22, which write backspace and form feed in the `u00` form). -/
def jsonEscapeChar (c : Char) : List Char :=
  let bs := Char.ofNat 92
  if c = Char.ofNat 34 ∨ c = bs then [bs, c]
  else if c = Char.ofNat 10 then [bs, 'n']
  else if c = Char.ofNat 13 then [bs, 'r']
  else if c = Char.ofNat 9 then [bs, 't']
  else if c.toNat < 32 ∨ c = '<' ∨ c = '>' ∨ c = '&' then
    [bs, 'u', '0', '0', hextable.getD (c.toNat / 16) '0', hextable.getD (c.toNat % 16) '0']
  else if c.toNat = 8232 ∨ c.toNat = 8233 then
    [bs, 'u', '2', '0', '2', hextable.getD (c.toNat % 16) '0']
  else [c]

/-- A Go string as a JSON string literal. -/
def jsonString (s : String) : String :=
  String.mk (Char.ofNat 34 :: s.data.flatMap jsonEscapeChar ++ [Char.ofNat 34])

/-- A JSON object whose members are strings, in the order given. -/
def jsonObject (fields : List (String × String)) : String :=
  "\x7b" ++ ",".intercalate (fields.map fun f => jsonString f.1 ++ ":" ++ jsonString f.2) ++ "\x7d"

/-- The call `json.Marshal(data)` of `postToSP`. `VolumeReportedReq` is declared in this file
with the single field `Epoch` tagged `json:"epoch"`; the other commands are `protos` messages. -/
def jsonMarshal (sp : Downstream) (data : Command) : Except String String :=
  match data with
  | Command.VolumeReportedReq epoch => Except.ok (jsonObject [("epoch", epoch)])
  | other => sp.MarshalProto other

/-- What one call of `postToSP` did: the HTTP requests it issued, the log lines it wrote and
the error it returned (`none` for nil). -/
structure PostResult where
  requests : List HttpRequest
  logs : List LogLine
  err : Option String
deriving Repr, DecidableEq

/-- The function `postToSP`. -/
def postToSP (sp : Downstream) (endpoint : String) (data : Command) : PostResult :=
  match jsonMarshal sp data with
  | Except.error err =>
    { requests := [], logs := [],
      err := some ("Error when trying to marshal data to json: " ++ err) }
  | Except.ok jsonData =>
    let url : Url :=
      { Scheme := "http", Host := sp.NetworkAddress, Port := sp.ApiPort, Path := endpoint }
    let request : HttpRequest :=
      { url := sp.UrlString url true true true false, contentType := "application/json",
        body := jsonData }
    match sp.Post request with
    | Except.error err =>
      { requests := [request], logs := [],
        err := some ("Error when calling " ++ endpoint ++ " endpoint in SP node: " ++ err) }
    | Except.ok resp =>
      let msg := sp.DecodeMsg resp.Body
      { requests := [request],
        logs := [{ text := endpoint ++ " endpoint response from SP node",
                   statusCode := resp.StatusCode, msg := msg }],
        err := none }

/-- The HTTP requests that delivering an event to a handler issues: those of the single
`postToSP` call when the handler reaches it, none otherwise. -/
def deliver (chain : Chain) (sp : Downstream) (h : Handler) (result : ResultEvent) :
    List HttpRequest :=
  match h.run chain result with
  | Outcome.posted endpoint data => (postToSP sp endpoint data).requests
  | _ => []

/-! ## The registrar -/

/-- One call of `m.SubscribeToStratosChain(query, handler)`. -/
structure Subscription where
  query : String
  handler : Handler
deriving Repr, DecidableEq

/-- The method `SubscribeToStratosChain` seen from the registrar: the call is recorded in the
trace and the transport's answer for the filter expression is returned (`none` for nil). -/
def SubscribeToStratosChain {ε : Type} (subscribe : String → Option ε)
    (trace : List Subscription) (query : String) (handler : Handler) :
    List Subscription × Option ε :=
  (trace ++ [{ query := query, handler := handler }], subscribe query)

/-- The method `SubscribeToStratosChainEvents`: the calls it made, in order, and the error it
returned. -/
def SubscribeToStratosChainEvents {ε : Type} (subscribe : String → Option ε) :
    List Subscription × Option ε :=
  match SubscribeToStratosChain subscribe [] "message.action='create_resource_node'"
      Handler.CreateResourceNodeMsgHandler with
  | (t, some err) => (t, some err)
  | (t, none) =>
  match SubscribeToStratosChain subscribe t "message.action='update_resource_node_stake'"
      Handler.UpdateResourceNodeStakeMsgHandler with
  | (t, some err) => (t, some err)
  | (t, none) =>
  match SubscribeToStratosChain subscribe t "message.action='unbonding_resource_node'"
      Handler.UnbondingResourceNodeMsgHandler with
  | (t, some err) => (t, some err)
  | (t, none) =>
  match SubscribeToStratosChain subscribe t "message.action='remove_resource_node'"
      Handler.RemoveResourceNodeMsgHandler with
  | (t, some err) => (t, some err)
  | (t, none) =>
  match SubscribeToStratosChain subscribe t "message.action='complete_unbonding_resource_node'"
      Handler.CompleteUnbondingResourceNodeMsgHandler with
  | (t, some err) => (t, some err)
  | (t, none) =>
  match SubscribeToStratosChain subscribe t "message.action='create_indexing_node'"
      Handler.CreateIndexingNodeMsgHandler with
  | (t, some err) => (t, some err)
  | (t, none) =>
  match SubscribeToStratosChain subscribe t "message.action='update_indexing_node_stake'"
      Handler.UpdateIndexingNodeStakeMsgHandler with
  | (t, some err) => (t, some err)
  | (t, none) =>
  match SubscribeToStratosChain subscribe t "message.action='unbonding_indexing_node'"
      Handler.UnbondingIndexingNodeMsgHandler with
  | (t, some err) => (t, some err)
  | (t, none) =>
  match SubscribeToStratosChain subscribe t "message.action='remove_indexing_node'"
      Handler.RemoveIndexingNodeMsgHandler with
  | (t, some err) => (t, some err)
  | (t, none) =>
  match SubscribeToStratosChain subscribe t "message.action='complete_unbonding_indexing_node'"
      Handler.CompleteUnbondingIndexingNodeMsgHandler with
  | (t, some err) => (t, some err)
  | (t, none) =>
  match SubscribeToStratosChain subscribe t "message.action='indexing_node_reg_vote'"
      Handler.IndexingNodeVoteMsgHandler with
  | (t, some err) => (t, some err)
  | (t, none) =>
  match SubscribeToStratosChain subscribe t "message.action='SdsPrepayTx'"
      Handler.PrepayMsgHandler with
  | (t, some err) => (t, some err)
  | (t, none) =>
  match SubscribeToStratosChain subscribe t "message.action='FileUploadTx'"
      Handler.FileUploadMsgHandler with
  | (t, some err) => (t, some err)
  | (t, none) =>
  SubscribeToStratosChain subscribe t "message.action='volume_report'"
    Handler.VolumeReportHandler

/-! ## Attribute tables -/

/-- The required attributes of a handler as the specification's table of categories
lists them, written as keys of the event. The table has no row of required attributes for the
placeholder handlers and for the two aliases, which get the empty list here. -/
def requiredAttributes : Handler → List String
  | Handler.CreateResourceNodeMsgHandler =>
    ["create_resource_node.network_address", "create_resource_node.pub_key",
     "create_resource_node.ozone_limit_changes", "tx.hash"]
  | Handler.UpdateResourceNodeStakeMsgHandler =>
    ["update_resource_node_stake.network_address",
     "update_resource_node_stake.ozone_limit_changes",
     "update_resource_node_stake.incr_stake", "tx.hash"]
  | Handler.UnbondingResourceNodeMsgHandler =>
    ["unbonding_resource_node.resource_node", "unbonding_resource_node.ozone_limit_changes",
     "unbonding_resource_node.unbonding_mature_time", "tx.hash"]
  | Handler.RemoveResourceNodeMsgHandler =>
    ["remove_resource_node.resource_node", "tx.hash"]
  | Handler.UpdateIndexingNodeStakeMsgHandler =>
    ["update_indexing_node_stake.network_address",
     "update_indexing_node_stake.ozone_limit_changes",
     "update_indexing_node_stake.incr_stake", "tx.hash"]
  | Handler.IndexingNodeVoteMsgHandler =>
    ["indexing_node_reg_vote.candidate_network_address",
     "indexing_node_reg_vote.candidate_status", "tx.hash"]
  | Handler.PrepayMsgHandler => ["Prepay.sender", "Prepay.purchased", "tx.hash"]
  | Handler.FileUploadMsgHandler =>
    ["FileUpload.reporter", "FileUpload.uploader", "FileUpload.file_hash", "tx.hash"]
  | Handler.VolumeReportHandler => ["volume_report.epoch"]
  | _ => []

/-- The keys of the event a handler reads (the index expressions `result.Events[...]` in its
body and in `getP2pAddressFromEvent`). The placeholder handlers read no key. -/
def keysRead : Handler → List String
  | Handler.CreateResourceNodeMsgHandler =>
    ["create_resource_node.network_address", "create_resource_node.pub_key",
     "create_resource_node.ozone_limit_changes", "tx.hash"]
  | Handler.UpdateResourceNodeStakeMsgHandler =>
    ["update_resource_node_stake.network_address",
     "update_resource_node_stake.ozone_limit_changes",
     "update_resource_node_stake.incr_stake", "tx.hash"]
  | Handler.UnbondingResourceNodeMsgHandler =>
    ["unbonding_resource_node.resource_node", "unbonding_resource_node.ozone_limit_changes",
     "unbonding_resource_node.unbonding_mature_time", "tx.hash"]
  | Handler.RemoveResourceNodeMsgHandler =>
    ["remove_resource_node.resource_node", "tx.hash"]
  | Handler.CompleteUnbondingResourceNodeMsgHandler =>
    ["remove_resource_node.resource_node", "tx.hash"]
  | Handler.CreateIndexingNodeMsgHandler => []
  | Handler.UpdateIndexingNodeStakeMsgHandler =>
    ["update_indexing_node_stake.network_address",
     "update_indexing_node_stake.ozone_limit_changes",
     "update_indexing_node_stake.incr_stake", "tx.hash"]
  | Handler.UnbondingIndexingNodeMsgHandler => []
  | Handler.RemoveIndexingNodeMsgHandler => []
  | Handler.CompleteUnbondingIndexingNodeMsgHandler => []
  | Handler.IndexingNodeVoteMsgHandler =>
    ["indexing_node_reg_vote.candidate_network_address",
     "indexing_node_reg_vote.candidate_status", "tx.hash"]
  | Handler.PrepayMsgHandler => ["Prepay.sender", "Prepay.purchased", "tx.hash"]
  | Handler.FileUploadMsgHandler =>
    ["FileUpload.reporter", "FileUpload.uploader", "FileUpload.file_hash", "tx.hash"]
  | Handler.VolumeReportHandler => ["volume_report.epoch"]

/-- The key of the attribute a handler indexes without a length check, if it has one:
`ozone_limit_changes` of its category. -/
def uncheckedOzoneKey : Handler → Option String
  | Handler.CreateResourceNodeMsgHandler => some "create_resource_node.ozone_limit_changes"
  | Handler.UpdateResourceNodeStakeMsgHandler =>
    some "update_resource_node_stake.ozone_limit_changes"
  | Handler.UnbondingResourceNodeMsgHandler => some "unbonding_resource_node.ozone_limit_changes"
  | Handler.UpdateIndexingNodeStakeMsgHandler =>
    some "update_indexing_node_stake.ozone_limit_changes"
  | _ => none

/-! ## A concrete instance of the collaborators

Used to evaluate the handlers on concrete events. -/

/-- A stand-in for the bech32 codec, the amino decoder and the configuration: an address text
is a prefix, the separator `1` and the hex digits of the address; a public key is the
five amino prefix bytes `16 24 DE 64 20` followed by 32 key bytes. -/
def exampleChain : Chain where
  BechToAddress := fun s =>
    match s.data.dropWhile (fun c => c != '1') with
    | [] => none
    | _ :: digits => hexDecode digits
  ToBech := fun a hrp => some (hrp ++ "1" ++ hexEncodeToString a)
  P2PAddressPrefix := "stsdsp2p"
  UnmarshalBinaryBare := fun raw =>
    match raw with
    | 0x16 :: 0x24 :: 0xDE :: 0x64 :: 0x20 :: key => if key.length = 32 then some key else none
    | _ => none
  BondStatusBonded := "Bonded"

/-! ## The registration sequence as the specification words it -/

/-- The bindings of filter expression and handler, in the declared order. -/
def declaredSubscriptions : List Subscription :=
  [{ query := "message.action='create_resource_node'",
     handler := Handler.CreateResourceNodeMsgHandler },
   { query := "message.action='update_resource_node_stake'",
     handler := Handler.UpdateResourceNodeStakeMsgHandler },
   { query := "message.action='unbonding_resource_node'",
     handler := Handler.UnbondingResourceNodeMsgHandler },
   { query := "message.action='remove_resource_node'",
     handler := Handler.RemoveResourceNodeMsgHandler },
   { query := "message.action='complete_unbonding_resource_node'",
     handler := Handler.CompleteUnbondingResourceNodeMsgHandler },
   { query := "message.action='create_indexing_node'",
     handler := Handler.CreateIndexingNodeMsgHandler },
   { query := "message.action='update_indexing_node_stake'",
     handler := Handler.UpdateIndexingNodeStakeMsgHandler },
   { query := "message.action='unbonding_indexing_node'",
     handler := Handler.UnbondingIndexingNodeMsgHandler },
   { query := "message.action='remove_indexing_node'",
     handler := Handler.RemoveIndexingNodeMsgHandler },
   { query := "message.action='complete_unbonding_indexing_node'",
     handler := Handler.CompleteUnbondingIndexingNodeMsgHandler },
   { query := "message.action='indexing_node_reg_vote'",
     handler := Handler.IndexingNodeVoteMsgHandler },
   { query := "message.action='SdsPrepayTx'", handler := Handler.PrepayMsgHandler },
   { query := "message.action='FileUploadTx'", handler := Handler.FileUploadMsgHandler },
   { query := "message.action='volume_report'", handler := Handler.VolumeReportHandler }]

/-- Sequential registration in the specification's words: subscribe the bindings one after
the other, stop at the first failure and return it; the first component lists the subscribe
calls made. -/
def registerSequentially {ε : Type} (subscribe : String → Option ε) :
    List Subscription → List Subscription × Option ε
  | [] => ([], none)
  | b :: bs =>
    match subscribe b.query with
    | some err => ([b], some err)
    | none => (b :: (registerSequentially subscribe bs).1, (registerSequentially subscribe bs).2)

/-- A transport that refuses exactly one filter expression. -/
def refusing (query : String) : String → Option String :=
  fun q => if q = query then some "subscription refused" else none

/-- A downstream service that answers every request with the given response and whose
`protos` messages do not marshal. -/
def exampleDownstream (resp : Response) : Downstream where
  MarshalProto := fun _ => Except.error "unsupported type"
  NetworkAddress := "127.0.0.1"
  ApiPort := "8888"
  UrlString := fun u _ _ _ _ => u.Scheme ++ "://" ++ u.Host ++ ":" ++ u.Port ++ u.Path
  Post := fun _ => Except.ok resp
  DecodeMsg := fun _ => none

/-! ## Basic facts -/

theorem length_lt_one_iff {α : Type} (xs : List α) : xs.length < 1 ↔ xs = [] := by
  cases xs <;> simp

theorem key_create_resource_node :
    "create_resource_node" ++ "." ++ "network_address" = "create_resource_node.network_address" := by
  decide

theorem key_update_resource_node_stake :
    "update_resource_node_stake" ++ "." ++ "network_address"
      = "update_resource_node_stake.network_address" := by
  decide

theorem key_unbonding_resource_node :
    "unbonding_resource_node" ++ "." ++ "resource_node"
      = "unbonding_resource_node.resource_node" := by
  decide

theorem key_remove_resource_node :
    "remove_resource_node" ++ "." ++ "resource_node" = "remove_resource_node.resource_node" := by
  decide

theorem key_update_indexing_node_stake :
    "update_indexing_node_stake" ++ "." ++ "network_address"
      = "update_indexing_node_stake.network_address" := by
  decide

theorem key_indexing_node_reg_vote :
    "indexing_node_reg_vote" ++ "." ++ "candidate_network_address"
      = "indexing_node_reg_vote.candidate_network_address" := by
  decide

/-- The extractor fails on an absent or empty attribute. -/
theorem getP2pAddressFromEvent_of_nil (chain : Chain) (result : ResultEvent)
    (eventName attribName : String) (h : result.get (eventName ++ "." ++ attribName) = []) :
    getP2pAddressFromEvent chain result eventName attribName
      = Except.error ("no " ++ attribName ++ " was specified in " ++ eventName
          ++ " msg from st-chain") := by
  simp [getP2pAddressFromEvent, h]

/-- The extractor on a non-empty attribute: only the first value is used. -/
theorem getP2pAddressFromEvent_of_cons (chain : Chain) (result : ResultEvent)
    (eventName attribName v : String) (rest : List String)
    (h : result.get (eventName ++ "." ++ attribName) = v :: rest) :
    getP2pAddressFromEvent chain result eventName attribName
      = match chain.BechToAddress v with
        | none => Except.error "error when trying to convert P2P address to bytes"
        | some p2pAddress =>
          match chain.ToBech p2pAddress chain.P2PAddressPrefix with
          | none => Except.error "error when trying to convert P2P address to bech32"
          | some p2pAddressString => Except.ok (p2pAddress, p2pAddressString) := by
  simp [getP2pAddressFromEvent, h]

/-! ## Missing attributes -/

/-- C1: a handler applied to an event in which one of the attributes the table requires for its
category is absent or has an empty value sequence does not call `postToSP`. -/
theorem no_post_when_required_attribute_missing (chain : Chain) (h : Handler)
    (result : ResultEvent)
    (hmissing : ∃ key ∈ requiredAttributes h, result.get key = []) :
    ∀ endpoint data, h.run chain result ≠ Outcome.posted endpoint data := by
  obtain ⟨key, hkey, hnil⟩ := hmissing
  intro endpoint data
  cases h <;> simp only [requiredAttributes, List.mem_cons, List.mem_singleton,
    List.not_mem_nil, or_false] at hkey
  all_goals try casesm* _ ∨ _
  all_goals subst_vars
  all_goals
    simp only [Handler.run, Relay.CreateResourceNodeMsgHandler,
      Relay.UpdateResourceNodeStakeMsgHandler, Relay.UnbondingResourceNodeMsgHandler,
      Relay.RemoveResourceNodeMsgHandler, Relay.UpdateIndexingNodeStakeMsgHandler,
      Relay.IndexingNodeVoteMsgHandler, Relay.PrepayMsgHandler, Relay.FileUploadMsgHandler,
      Relay.VolumeReportHandler, getP2pAddressFromEvent, key_create_resource_node,
      key_update_resource_node_stake, key_unbonding_resource_node, key_remove_resource_node,
      key_update_indexing_node_stake, key_indexing_node_reg_vote, hnil, length_lt_one_iff]
  all_goals try simp only [index0]
  all_goals repeat' split
  all_goals simp_all

/-- C1, at a concrete event: a `create_resource_node` event without `pub_key`. -/
theorem no_post_when_required_attribute_missing_witness :
    (∃ key ∈ requiredAttributes Handler.CreateResourceNodeMsgHandler,
      ResultEvent.get
        { Events := [("create_resource_node.network_address", ["st100ff"]),
                     ("create_resource_node.ozone_limit_changes", ["100"]),
                     ("tx.hash", ["ABC123"])] } key = []) ∧
    ∀ endpoint data,
      Handler.CreateResourceNodeMsgHandler.run exampleChain
        { Events := [("create_resource_node.network_address", ["st100ff"]),
                     ("create_resource_node.ozone_limit_changes", ["100"]),
                     ("tx.hash", ["ABC123"])] } ≠ Outcome.posted endpoint data :=
  ⟨⟨"create_resource_node.pub_key", by decide, by decide⟩,
   no_post_when_required_attribute_missing exampleChain Handler.CreateResourceNodeMsgHandler _
     ⟨"create_resource_node.pub_key", by decide, by decide⟩⟩

/-! ## Runtime errors -/

/-- C2: the handlers index `ozone_limit_changes` (and `unbonding_mature_time`) without a length
check. Once the address has been extracted, `UnbondingResourceNodeMsgHandler` fails with a
runtime error when either attribute is absent or empty, and the create and update-stake
handlers fail with one when `ozone_limit_changes` is absent or empty and their checked
attributes are present: these events are not dropped. -/
theorem unchecked_attribute_panics (chain : Chain) (result : ResultEvent) :
    (∀ a s, getP2pAddressFromEvent chain result "unbonding_resource_node" "resource_node"
        = Except.ok (a, s) →
      (result.get "unbonding_resource_node.ozone_limit_changes" = [] ∨
        result.get "unbonding_resource_node.unbonding_mature_time" = []) →
      UnbondingResourceNodeMsgHandler chain result = Outcome.panicked) ∧
    (∀ a s, getP2pAddressFromEvent chain result "update_resource_node_stake" "network_address"
        = Except.ok (a, s) →
      result.get "update_resource_node_stake.ozone_limit_changes" = [] →
      result.get "update_resource_node_stake.incr_stake" ≠ [] →
      result.get "tx.hash" ≠ [] →
      UpdateResourceNodeStakeMsgHandler chain result = Outcome.panicked) ∧
    (∀ a s, getP2pAddressFromEvent chain result "update_indexing_node_stake" "network_address"
        = Except.ok (a, s) →
      result.get "update_indexing_node_stake.ozone_limit_changes" = [] →
      result.get "update_indexing_node_stake.incr_stake" ≠ [] →
      result.get "tx.hash" ≠ [] →
      UpdateIndexingNodeStakeMsgHandler chain result = Outcome.panicked) ∧
    (∀ a s pubkey rest raw key,
      getP2pAddressFromEvent chain result "create_resource_node" "network_address"
        = Except.ok (a, s) →
      result.get "create_resource_node.pub_key" = pubkey :: rest →
      hexDecodeString pubkey = some raw →
      chain.UnmarshalBinaryBare raw = some key →
      result.get "create_resource_node.ozone_limit_changes" = [] →
      result.get "tx.hash" ≠ [] →
      CreateResourceNodeMsgHandler chain result = Outcome.panicked) := by
  refine ⟨?_, ?_, ?_, ?_⟩
  · intro a s hok hnil
    rcases hnil with hnil | hnil
    · simp [UnbondingResourceNodeMsgHandler, hok, hnil, index0]
    · simp only [UnbondingResourceNodeMsgHandler, hok, hnil, index0]
      split <;> rfl
  · intro a s hok hnil hincr htx
    simp [UpdateResourceNodeStakeMsgHandler, hok, hnil, index0, length_lt_one_iff, hincr, htx]
  · intro a s hok hnil hincr htx
    simp [UpdateIndexingNodeStakeMsgHandler, hok, hnil, index0, length_lt_one_iff, hincr, htx]
  · intro a s pubkey rest raw key hok hpub hraw hkey hnil htx
    simp [CreateResourceNodeMsgHandler, hok, hpub, hraw, hkey, hnil, index0, length_lt_one_iff,
      htx]

/-- C2, at concrete events: an `unbonding_resource_node` event with a well-formed address and a
`tx.hash` but no `ozone_limit_changes` ends in a runtime error, and so does one that only
lacks `unbonding_mature_time`. -/
theorem unchecked_attribute_panics_witness :
    UnbondingResourceNodeMsgHandler exampleChain
        { Events := [("unbonding_resource_node.resource_node", ["st100ff"]),
                     ("unbonding_resource_node.unbonding_mature_time", ["2021-06-01T00:00:00Z"]),
                     ("tx.hash", ["ABC123"])] } = Outcome.panicked ∧
    UnbondingResourceNodeMsgHandler exampleChain
        { Events := [("unbonding_resource_node.resource_node", ["st100ff"]),
                     ("unbonding_resource_node.ozone_limit_changes", ["100"]),
                     ("tx.hash", ["ABC123"])] } = Outcome.panicked :=
  ⟨(unchecked_attribute_panics exampleChain _).1 [0x00, 0xff] "stsdsp2p100ff" (by rfl)
      (Or.inl (by decide)),
   (unchecked_attribute_panics exampleChain _).1 [0x00, 0xff] "stsdsp2p100ff" (by rfl)
      (Or.inr (by decide))⟩

/-! ## Functional behaviour of the handlers -/

/-- C3: `IndexingNodeVoteMsgHandler` drops every event whose first `candidate_status` value
differs from `sdkTypes.BondStatusBonded`, whatever the other attributes are; and when the
first `candidate_network_address` value decodes to an address with re-encoding `s` under the
configured prefix, the first status equals the constant and `tx.hash` is non-empty, it calls
`postToSP` once, on `/chain/activated`, with address `s` and the first `tx.hash` value. -/
theorem IndexingNodeVoteMsgHandler_gate (chain : Chain) (result : ResultEvent) :
    (∀ status rest,
      result.get "indexing_node_reg_vote.candidate_status" = status :: rest →
      status ≠ chain.BondStatusBonded →
      IndexingNodeVoteMsgHandler chain result = Outcome.dropped) ∧
    (∀ v vs a s status rest txHash txs,
      result.get "indexing_node_reg_vote.candidate_network_address" = v :: vs →
      chain.BechToAddress v = some a →
      chain.ToBech a chain.P2PAddressPrefix = some s →
      result.get "indexing_node_reg_vote.candidate_status" = status :: rest →
      status = chain.BondStatusBonded →
      result.get "tx.hash" = txHash :: txs →
      IndexingNodeVoteMsgHandler chain result
        = Outcome.posted "/chain/activated" (Command.ReqActivatedSP s txHash)) := by
  constructor
  · intro status rest hstatus hne
    simp only [IndexingNodeVoteMsgHandler, hstatus, index0]
    split
    · rfl
    · simp [hne]
  · intro v vs a s status rest txHash txs haddr hdec henc hstatus heq htx
    simp [IndexingNodeVoteMsgHandler, getP2pAddressFromEvent, key_indexing_node_reg_vote, haddr,
      hdec, henc, hstatus, heq, htx, index0]

/-- C3, at concrete events: a vote whose candidate is still `Unbonded` is dropped, a vote
whose candidate is `Bonded` is forwarded. -/
theorem IndexingNodeVoteMsgHandler_gate_witness :
    IndexingNodeVoteMsgHandler exampleChain
        { Events := [("indexing_node_reg_vote.candidate_network_address", ["st100ff"]),
                     ("indexing_node_reg_vote.candidate_status", ["Unbonded"]),
                     ("tx.hash", ["ABC123"])] } = Outcome.dropped ∧
    IndexingNodeVoteMsgHandler exampleChain
        { Events := [("indexing_node_reg_vote.candidate_network_address", ["st100ff", "st1"]),
                     ("indexing_node_reg_vote.candidate_status", ["Bonded"]),
                     ("tx.hash", ["ABC123", "DEF456"])] }
      = Outcome.posted "/chain/activated" (Command.ReqActivatedSP "stsdsp2p100ff" "ABC123") :=
  ⟨(IndexingNodeVoteMsgHandler_gate exampleChain _).1 "Unbonded" [] (by decide) (by decide),
   (IndexingNodeVoteMsgHandler_gate exampleChain _).2 "st100ff" ["st1"] [0x00, 0xff]
      "stsdsp2p100ff" "Bonded" [] "ABC123" ["DEF456"] (by decide) (by decide) (by decide)
      (by decide) (by decide) (by decide)⟩

/-- C5: on a well-formed `create_resource_node` event (the first `network_address` value
decodes to an address `a` whose re-encoding under the configured prefix is `s`, the first
`pub_key` value is hex that deserializes to the public key `key`, `ozone_limit_changes` and
`tx.hash` are non-empty) `CreateResourceNodeMsgHandler` calls `postToSP` once, on
`/pp/activated`, with address `s`, pubkey the hex encoding of `key`, the first
`ozone_limit_changes` value and the first `tx.hash` value. -/
theorem CreateResourceNodeMsgHandler_well_formed (chain : Chain) (result : ResultEvent)
    (v : String) (vs : List String) (a : Address) (s : String)
    (pubkey : String) (pubkeys : List String) (raw : List Byte) (key : PubKeyEd25519)
    (ozone : String) (ozones : List String) (txHash : String) (txs : List String)
    (haddr : result.get "create_resource_node.network_address" = v :: vs)
    (hdec : chain.BechToAddress v = some a)
    (henc : chain.ToBech a chain.P2PAddressPrefix = some s)
    (hpub : result.get "create_resource_node.pub_key" = pubkey :: pubkeys)
    (hraw : hexDecodeString pubkey = some raw)
    (hkey : chain.UnmarshalBinaryBare raw = some key)
    (hozone : result.get "create_resource_node.ozone_limit_changes" = ozone :: ozones)
    (htx : result.get "tx.hash" = txHash :: txs) :
    CreateResourceNodeMsgHandler chain result
      = Outcome.posted "/pp/activated"
          (Command.ReqActivatedPP s (hexEncodeToString key) ozone txHash) := by
  simp [CreateResourceNodeMsgHandler, getP2pAddressFromEvent, key_create_resource_node, haddr,
    hdec, henc, hpub, hraw, hkey, hozone, htx, index0]

/-- C5, at the concrete event of the scenario: address, amino-encoded 32-byte key, ozone
`100`, hash `ABC123`. -/
theorem CreateResourceNodeMsgHandler_well_formed_witness :
    CreateResourceNodeMsgHandler exampleChain
        { Events := [("create_resource_node.network_address", ["st100ff"]),
                     ("create_resource_node.pub_key", ["1624DE64200102030405060708090a0b0c0d0e0f101112131415161718191a1b1c1d1e1f20"]),
                     ("create_resource_node.ozone_limit_changes", ["100"]),
                     ("tx.hash", ["ABC123"])] }
      = Outcome.posted "/pp/activated"
          (Command.ReqActivatedPP "stsdsp2p100ff" "0102030405060708090a0b0c0d0e0f101112131415161718191a1b1c1d1e1f20" "100" "ABC123") :=
  (CreateResourceNodeMsgHandler_well_formed exampleChain _ "st100ff" [] [0x00, 0xff]
    "stsdsp2p100ff" "1624DE64200102030405060708090a0b0c0d0e0f101112131415161718191a1b1c1d1e1f20" []
    (0x16 :: 0x24 :: 0xDE :: 0x64 :: 0x20 :: (List.range 32).map fun i => Fin.ofNat (i + 1))
    ((List.range 32).map fun i => Fin.ofNat (i + 1)) "100" [] "ABC123" []
    (by decide) (by decide) (by decide) (by decide) (by decide) (by decide) (by decide)
    (by decide)).trans (by decide)

/-! ## The registrar -/

theorem registerSequentially_none_iff {ε : Type} (subscribe : String → Option ε)
    (bs : List Subscription) :
    (registerSequentially subscribe bs).2 = none ↔ ∀ b ∈ bs, subscribe b.query = none := by
  induction bs with
  | nil => simp [registerSequentially]
  | cons b bs ih =>
    cases hb : subscribe b.query with
    | none => simp [registerSequentially, hb, ih]
    | some err => simp [registerSequentially, hb]

theorem registerSequentially_of_all_none {ε : Type} (subscribe : String → Option ε)
    (bs : List Subscription) (h : ∀ b ∈ bs, subscribe b.query = none) :
    registerSequentially subscribe bs = (bs, none) := by
  induction bs with
  | nil => simp [registerSequentially]
  | cons b bs ih =>
    have hb : subscribe b.query = none := h b (List.mem_cons_self _ _)
    have ht := ih fun b' hb' => h b' (List.mem_cons_of_mem _ hb')
    simp [registerSequentially, hb, ht]

theorem registerSequentially_first_failure {ε : Type} (subscribe : String → Option ε)
    (bs : List Subscription) (i : Nat) (b : Subscription) (err : ε)
    (hb : bs[i]? = some b) (herr : subscribe b.query = some err)
    (hbefore : ∀ j b', j < i → bs[j]? = some b' → subscribe b'.query = none) :
    registerSequentially subscribe bs = (bs.take (i + 1), some err) := by
  induction bs generalizing i with
  | nil => simp at hb
  | cons c cs ih =>
    cases i with
    | zero =>
      simp at hb
      subst hb
      simp [registerSequentially, herr]
    | succ i =>
      have hc : subscribe c.query = none := hbefore 0 c (Nat.succ_pos _) (by simp)
      have ht := ih i (by simpa using hb) fun j b' hj hb' =>
        hbefore (j + 1) b' (Nat.succ_lt_succ hj) (by simpa using hb')
      simp [registerSequentially, hc, ht]

theorem SubscribeToStratosChainEvents_eq_registerSequentially {ε : Type}
    (subscribe : String → Option ε) :
    SubscribeToStratosChainEvents subscribe
      = registerSequentially subscribe declaredSubscriptions := by
  simp only [SubscribeToStratosChainEvents, SubscribeToStratosChain, declaredSubscriptions,
    registerSequentially, List.nil_append, List.cons_append]
  repeat' split
  all_goals simp only [Prod.mk.injEq] at *
  all_goals try casesm* _ ∧ _
  all_goals subst_vars
  all_goals simp_all

/-- C4: for every transport, `SubscribeToStratosChainEvents` subscribes the 14 filter
expressions in the declared order and stops at the first failure: it is the sequential
registration of `declaredSubscriptions`; when the binding at position `i` is the first
that fails, exactly the first `i + 1` subscribe calls are made and that failure is returned;
it returns no error if and only if all 14 filters subscribe, in which case all 14 calls were
made. -/
theorem SubscribeToStratosChainEvents_sequential {ε : Type} (subscribe : String → Option ε) :
    SubscribeToStratosChainEvents subscribe
        = registerSequentially subscribe declaredSubscriptions ∧
    (∀ i b err, declaredSubscriptions[i]? = some b → subscribe b.query = some err →
      (∀ j b', j < i → declaredSubscriptions[j]? = some b' → subscribe b'.query = none) →
      SubscribeToStratosChainEvents subscribe = (declaredSubscriptions.take (i + 1), some err)) ∧
    ((SubscribeToStratosChainEvents subscribe).2 = none ↔
      ∀ b ∈ declaredSubscriptions, subscribe b.query = none) ∧
    ((SubscribeToStratosChainEvents subscribe).2 = none →
      (SubscribeToStratosChainEvents subscribe).1 = declaredSubscriptions) ∧
    declaredSubscriptions.map Subscription.query
      = ["message.action='create_resource_node'", "message.action='update_resource_node_stake'",
         "message.action='unbonding_resource_node'", "message.action='remove_resource_node'",
         "message.action='complete_unbonding_resource_node'",
         "message.action='create_indexing_node'", "message.action='update_indexing_node_stake'",
         "message.action='unbonding_indexing_node'", "message.action='remove_indexing_node'",
         "message.action='complete_unbonding_indexing_node'",
         "message.action='indexing_node_reg_vote'", "message.action='SdsPrepayTx'",
         "message.action='FileUploadTx'", "message.action='volume_report'"] := by
  have heq := SubscribeToStratosChainEvents_eq_registerSequentially subscribe
  refine ⟨heq, ?_, ?_, ?_, rfl⟩
  · intro i b err hb herr hbefore
    rw [heq]
    exact registerSequentially_first_failure subscribe _ i b err hb herr hbefore
  · rw [heq]
    exact registerSequentially_none_iff subscribe _
  · rw [heq]
    intro hnone
    rw [registerSequentially_of_all_none subscribe _
      ((registerSequentially_none_iff subscribe _).1 hnone)]

/-- C4, at a concrete transport that refuses `unbonding_resource_node`: three subscribe calls
are made and the refusal is returned. -/
theorem SubscribeToStratosChainEvents_sequential_witness :
    SubscribeToStratosChainEvents (refusing "message.action='unbonding_resource_node'")
      = ([{ query := "message.action='create_resource_node'",
            handler := Handler.CreateResourceNodeMsgHandler },
          { query := "message.action='update_resource_node_stake'",
            handler := Handler.UpdateResourceNodeStakeMsgHandler },
          { query := "message.action='unbonding_resource_node'",
            handler := Handler.UnbondingResourceNodeMsgHandler }],
         some "subscription refused") :=
  (SubscribeToStratosChainEvents_sequential
      (refusing "message.action='unbonding_resource_node'")).2.1 2
    { query := "message.action='unbonding_resource_node'",
      handler := Handler.UnbondingResourceNodeMsgHandler }
    "subscription refused" (by decide) (by decide)
    (by
      intro j b' hj hb'
      interval_cases j <;> simp [declaredSubscriptions] at hb' <;> subst hb' <;> decide)

/-! ## Volume reports -/

/-- C6: when `volume_report.epoch` is non-empty with first value `v`, `VolumeReportHandler`
calls `postToSP` once, on `/volume/reported`, with `VolumeReportedReq{Epoch: v}`, which
marshals to the JSON object with the single member `epoch` equal to `v`, and the delivery
issues exactly one HTTP request with that body; when the attribute is absent or empty the
event is dropped. The outcome depends on the first `volume_report.epoch` value only (not on
`tx.hash`, any other attribute or the codec). For `v = "42"` the body is
`{"epoch":"42"}`. -/
theorem VolumeReportHandler_spec (chain : Chain) (sp : Downstream) (result : ResultEvent) :
    (∀ v rest, result.get "volume_report.epoch" = v :: rest →
      VolumeReportHandler chain result
          = Outcome.posted "/volume/reported" (Command.VolumeReportedReq v) ∧
      jsonMarshal sp (Command.VolumeReportedReq v) = Except.ok (jsonObject [("epoch", v)]) ∧
      deliver chain sp Handler.VolumeReportHandler result
          = [{ url := sp.UrlString { Scheme := "http", Host := sp.NetworkAddress,
                                     Port := sp.ApiPort, Path := "/volume/reported" }
                        true true true false,
               contentType := "application/json",
               body := jsonObject [("epoch", v)] }]) ∧
    (result.get "volume_report.epoch" = [] →
      VolumeReportHandler chain result = Outcome.dropped ∧
      deliver chain sp Handler.VolumeReportHandler result = []) ∧
    (∀ (chain' : Chain) (result' : ResultEvent),
      (result'.get "volume_report.epoch").head? = (result.get "volume_report.epoch").head? →
      VolumeReportHandler chain' result' = VolumeReportHandler chain result) ∧
    jsonObject [("epoch", "42")] = "\x7b\"epoch\":\"42\"\x7d" := by
  refine ⟨?_, ?_, ?_, by decide⟩
  · intro v rest hv
    have hrun : VolumeReportHandler chain result
        = Outcome.posted "/volume/reported" (Command.VolumeReportedReq v) := by
      simp [VolumeReportHandler, hv, index0]
    refine ⟨hrun, rfl, ?_⟩
    simp only [deliver, Handler.run, hrun, postToSP, jsonMarshal]
    cases sp.Post _ <;> rfl
  · intro hnil
    have hrun : VolumeReportHandler chain result = Outcome.dropped := by
      simp [VolumeReportHandler, hnil]
    exact ⟨hrun, by simp only [deliver, Handler.run, hrun]⟩
  · intro chain' result' hhead
    cases h1 : result'.get "volume_report.epoch" <;>
      cases h2 : result.get "volume_report.epoch" <;>
      simp_all [VolumeReportHandler, index0]

/-- C6, at the concrete scenario `volume_report.epoch = ["42"]` (with a second value and a
`tx.hash` that play no role): one request to `/volume/reported` with body
`{"epoch":"42"}`. -/
theorem VolumeReportHandler_spec_witness :
    VolumeReportHandler exampleChain
        { Events := [("tx.hash", ["ABC123"]), ("volume_report.epoch", ["42", "43"])] }
      = Outcome.posted "/volume/reported" (Command.VolumeReportedReq "42") ∧
    deliver exampleChain (exampleDownstream { StatusCode := 200, Body := "" })
        Handler.VolumeReportHandler
        { Events := [("tx.hash", ["ABC123"]), ("volume_report.epoch", ["42", "43"])] }
      = [{ url := "http://127.0.0.1:8888/volume/reported", contentType := "application/json",
           body := "\x7b\"epoch\":\"42\"\x7d" }] :=
  ⟨((VolumeReportHandler_spec exampleChain (exampleDownstream { StatusCode := 200, Body := "" })
      _).1 "42" ["43"] (by decide)).1,
   ((VolumeReportHandler_spec exampleChain (exampleDownstream { StatusCode := 200, Body := "" })
      _).1 "42" ["43"] (by decide)).2.2.trans (by decide)⟩

/-! ## The forwarder -/

/-- C7: `postToSP` returns an error exactly when `json.Marshal` fails or `http.Post` fails.
When the command marshals and the POST yields a response, it returns nil whatever the
status code and the body of the response are (the decoder's result only reaches the log
line) and exactly one request was issued; when the marshal fails, no request is issued. -/
theorem postToSP_error_iff (sp : Downstream) (endpoint : String) (data : Command) :
    ((postToSP sp endpoint data).err ≠ none ↔
      (∃ err, jsonMarshal sp data = Except.error err) ∨
      (∃ jsonData err, jsonMarshal sp data = Except.ok jsonData ∧
        sp.Post { url := sp.UrlString { Scheme := "http", Host := sp.NetworkAddress,
                                        Port := sp.ApiPort, Path := endpoint }
                           true true true false,
                  contentType := "application/json", body := jsonData }
          = Except.error err)) ∧
    (∀ jsonData resp, jsonMarshal sp data = Except.ok jsonData →
      sp.Post { url := sp.UrlString { Scheme := "http", Host := sp.NetworkAddress,
                                      Port := sp.ApiPort, Path := endpoint }
                         true true true false,
                contentType := "application/json", body := jsonData }
        = Except.ok resp →
      (postToSP sp endpoint data).err = none ∧
      (postToSP sp endpoint data).requests
        = [{ url := sp.UrlString { Scheme := "http", Host := sp.NetworkAddress,
                                   Port := sp.ApiPort, Path := endpoint }
                      true true true false,
             contentType := "application/json", body := jsonData }] ∧
      (postToSP sp endpoint data).logs
        = [{ text := endpoint ++ " endpoint response from SP node",
             statusCode := resp.StatusCode, msg := sp.DecodeMsg resp.Body }]) ∧
    (∀ err, jsonMarshal sp data = Except.error err →
      (postToSP sp endpoint data).requests = [] ∧
      (postToSP sp endpoint data).err
        = some ("Error when trying to marshal data to json: " ++ err)) := by
  refine ⟨?_, ?_, ?_⟩
  · cases hm : jsonMarshal sp data with
    | error err => simp [postToSP, hm]
    | ok jsonData =>
      cases hp : sp.Post (HttpRequest.mk
          (sp.UrlString (Url.mk "http" sp.NetworkAddress sp.ApiPort endpoint) true true true false)
          "application/json" jsonData) with
      | error err => simp [postToSP, hm, hp]
      | ok resp => simp [postToSP, hm, hp]
  · intro jsonData resp hm hp
    simp [postToSP, hm, hp]
  · intro err hm
    simp [postToSP, hm]

/-- C7, at concrete inputs: a volume report answered with status 500 and a body that is not
JSON yields no error, and a command whose marshal fails yields an error without a request. -/
theorem postToSP_error_iff_witness :
    (postToSP (exampleDownstream { StatusCode := 500, Body := "<html>" }) "/volume/reported"
        (Command.VolumeReportedReq "42")).err = none ∧
    (postToSP (exampleDownstream { StatusCode := 500, Body := "<html>" }) "/pp/prepaid"
        (Command.ReqPrepaid "st1wallet" "100" "ABC123")).requests = [] :=
  ⟨((postToSP_error_iff (exampleDownstream { StatusCode := 500, Body := "<html>" })
      "/volume/reported" (Command.VolumeReportedReq "42")).2.1
      "\x7b\"epoch\":\"42\"\x7d" { StatusCode := 500, Body := "<html>" } (by rfl) (by rfl)).1,
   ((postToSP_error_iff (exampleDownstream { StatusCode := 500, Body := "<html>" })
      "/pp/prepaid" (Command.ReqPrepaid "st1wallet" "100" "ABC123")).2.2
      "unsupported type" (by rfl)).1⟩

/-! ## Aliased handlers -/

/-- C8: on every event `CompleteUnbondingResourceNodeMsgHandler` has the outcome of
`RemoveResourceNodeMsgHandler` and `CompleteUnbondingIndexingNodeMsgHandler` the outcome of
`RemoveIndexingNodeMsgHandler`, so that delivering the event issues the same HTTP requests;
the handler bound to `complete_unbonding_resource_node` reads the address from
`remove_resource_node.resource_node`: an event in which that key is absent or empty is
dropped, whatever `complete_unbonding_resource_node.resource_node` holds. -/
theorem complete_unbonding_aliases (chain : Chain) (sp : Downstream) (result : ResultEvent) :
    Handler.CompleteUnbondingResourceNodeMsgHandler.run chain result
        = Handler.RemoveResourceNodeMsgHandler.run chain result ∧
    Handler.CompleteUnbondingIndexingNodeMsgHandler.run chain result
        = Handler.RemoveIndexingNodeMsgHandler.run chain result ∧
    deliver chain sp Handler.CompleteUnbondingResourceNodeMsgHandler result
        = deliver chain sp Handler.RemoveResourceNodeMsgHandler result ∧
    deliver chain sp Handler.CompleteUnbondingIndexingNodeMsgHandler result
        = deliver chain sp Handler.RemoveIndexingNodeMsgHandler result ∧
    (result.get "remove_resource_node.resource_node" = [] →
      Handler.CompleteUnbondingResourceNodeMsgHandler.run chain result = Outcome.dropped) ∧
    (∀ v vs a s txHash txs,
      result.get "remove_resource_node.resource_node" = v :: vs →
      chain.BechToAddress v = some a →
      chain.ToBech a chain.P2PAddressPrefix = some s →
      result.get "tx.hash" = txHash :: txs →
      Handler.CompleteUnbondingResourceNodeMsgHandler.run chain result
        = Outcome.posted "/pp/deactivated" (Command.ReqDeactivatedPP s)) := by
  refine ⟨rfl, rfl, rfl, rfl, ?_, ?_⟩
  · intro hnil
    simp [Handler.run, CompleteUnbondingResourceNodeMsgHandler, RemoveResourceNodeMsgHandler,
      getP2pAddressFromEvent, key_remove_resource_node, hnil]
  · intro v vs a s txHash txs haddr hdec henc htx
    simp [Handler.run, CompleteUnbondingResourceNodeMsgHandler, RemoveResourceNodeMsgHandler,
      getP2pAddressFromEvent, key_remove_resource_node, haddr, hdec, henc, htx]

/-- C8, at concrete events: a completed-unbonding event that carries its address under
`complete_unbonding_resource_node.resource_node` is dropped; one that carries it under
`remove_resource_node.resource_node` is forwarded to `/pp/deactivated`. -/
theorem complete_unbonding_aliases_witness :
    Handler.CompleteUnbondingResourceNodeMsgHandler.run exampleChain
        { Events := [("complete_unbonding_resource_node.resource_node", ["st100ff"]),
                     ("tx.hash", ["ABC123"])] } = Outcome.dropped ∧
    Handler.CompleteUnbondingResourceNodeMsgHandler.run exampleChain
        { Events := [("remove_resource_node.resource_node", ["st100ff"]),
                     ("tx.hash", ["ABC123"])] }
      = Outcome.posted "/pp/deactivated" (Command.ReqDeactivatedPP "stsdsp2p100ff") :=
  ⟨(complete_unbonding_aliases exampleChain (exampleDownstream { StatusCode := 200, Body := "" })
      _).2.2.2.2.1 (by decide),
   (complete_unbonding_aliases exampleChain (exampleDownstream { StatusCode := 200, Body := "" })
      _).2.2.2.2.2 "st100ff" [] [0x00, 0xff] "stsdsp2p100ff" "ABC123" [] (by decide)
      (by decide) (by decide) (by decide)⟩

/-! ## First value only -/

theorem index0_eq_head (xs : List String) (k : String → Outcome) :
    index0 xs k = match xs.head? with
      | none => Outcome.panicked
      | some x => k x := by
  cases xs <;> rfl

theorem length_lt_one_eq_head {α : Type} (xs : List α) :
    (xs.length < 1) = (xs.head? = none) := by
  cases xs <;> simp

theorem getP2pAddressFromEvent_eq_head (chain : Chain) (result : ResultEvent)
    (eventName attribName : String) :
    getP2pAddressFromEvent chain result eventName attribName
      = match (result.get (eventName ++ "." ++ attribName)).head? with
        | none =>
          Except.error ("no " ++ attribName ++ " was specified in " ++ eventName
            ++ " msg from st-chain")
        | some v =>
          match chain.BechToAddress v with
          | none => Except.error "error when trying to convert P2P address to bytes"
          | some p2pAddress =>
            match chain.ToBech p2pAddress chain.P2PAddressPrefix with
            | none => Except.error "error when trying to convert P2P address to bech32"
            | some p2pAddressString => Except.ok (p2pAddress, p2pAddressString) := by
  unfold getP2pAddressFromEvent
  cases result.get (eventName ++ "." ++ attribName) <;> rfl

theorem run_first_value_only (chain : Chain) (h : Handler) (r₁ r₂ : ResultEvent)
    (hsame : ∀ key ∈ keysRead h, (r₁.get key).head? = (r₂.get key).head?) :
    h.run chain r₁ = h.run chain r₂ := by
  cases h <;>
    simp only [keysRead, List.forall_mem_cons, List.mem_singleton, forall_eq, List.not_mem_nil,
      false_implies, implies_true, and_true] at hsame <;>
    simp only [Handler.run, Relay.CreateResourceNodeMsgHandler,
      Relay.UpdateResourceNodeStakeMsgHandler, Relay.UnbondingResourceNodeMsgHandler,
      Relay.RemoveResourceNodeMsgHandler, Relay.CompleteUnbondingResourceNodeMsgHandler,
      Relay.CreateIndexingNodeMsgHandler, Relay.UnbondingIndexingNodeMsgHandler,
      Relay.RemoveIndexingNodeMsgHandler, Relay.CompleteUnbondingIndexingNodeMsgHandler,
      Relay.UpdateIndexingNodeStakeMsgHandler,
      Relay.IndexingNodeVoteMsgHandler, Relay.PrepayMsgHandler, Relay.FileUploadMsgHandler,
      Relay.VolumeReportHandler, getP2pAddressFromEvent_eq_head, key_create_resource_node,
      key_update_resource_node_stake, key_unbonding_resource_node, key_remove_resource_node,
      key_update_indexing_node_stake, key_indexing_node_reg_vote, index0_eq_head,
      length_lt_one_eq_head, hsame]

/-- C9: only the first value of an attribute is consulted. Two events that agree, for each key
a handler reads, on the first value (both absent or empty, or both non-empty with the same
first value) have the same outcome under that handler; and `getP2pAddressFromEvent` fails
when the key `eventName.attribName` is absent or empty and otherwise decodes the value at
index 0, whatever follows it. -/
theorem first_value_only (chain : Chain) :
    (∀ (h : Handler) (r₁ r₂ : ResultEvent),
      (∀ key ∈ keysRead h, (r₁.get key).head? = (r₂.get key).head?) →
      h.run chain r₁ = h.run chain r₂) ∧
    (∀ (result : ResultEvent) (eventName attribName : String),
      result.get (eventName ++ "." ++ attribName) = [] →
      getP2pAddressFromEvent chain result eventName attribName
        = Except.error ("no " ++ attribName ++ " was specified in " ++ eventName
            ++ " msg from st-chain")) ∧
    (∀ (result : ResultEvent) (eventName attribName v : String) (rest : List String),
      result.get (eventName ++ "." ++ attribName) = v :: rest →
      getP2pAddressFromEvent chain result eventName attribName
        = match chain.BechToAddress v with
          | none => Except.error "error when trying to convert P2P address to bytes"
          | some p2pAddress =>
            match chain.ToBech p2pAddress chain.P2PAddressPrefix with
            | none => Except.error "error when trying to convert P2P address to bech32"
            | some p2pAddressString => Except.ok (p2pAddress, p2pAddressString)) :=
  ⟨run_first_value_only chain,
   fun result eventName attribName h =>
     getP2pAddressFromEvent_of_nil chain result eventName attribName h,
   fun result eventName attribName v rest h =>
     getP2pAddressFromEvent_of_cons chain result eventName attribName v rest h⟩

/-- C9, at concrete events: two `FileUploadTx` events that differ after the first value of
every attribute have the same outcome. -/
theorem first_value_only_witness :
    Handler.FileUploadMsgHandler.run exampleChain
        { Events := [("FileUpload.reporter", ["r", "r2"]), ("FileUpload.uploader", ["u"]),
                     ("FileUpload.file_hash", ["f", "f2", "f3"]), ("tx.hash", ["ABC123"])] }
      = Handler.FileUploadMsgHandler.run exampleChain
        { Events := [("tx.hash", ["ABC123", "DEF456"]), ("FileUpload.reporter", ["r"]),
                     ("FileUpload.uploader", ["u", "u2"]), ("FileUpload.file_hash", ["f"]),
                     ("FileUpload.extra", ["x"])] } :=
  (first_value_only exampleChain).1 Handler.FileUploadMsgHandler _ _ (by decide)

/-! ## Prepay -/

/-- C10: `PrepayMsgHandler` calls `postToSP` if and only if `Prepay.sender`,
`Prepay.purchased` and `tx.hash` are all non-empty; in that case the call is on `/pp/prepaid`
with the first values of the three attributes, unchanged, as wallet address, purchased amount
and transaction hash. -/
theorem PrepayMsgHandler_spec (chain : Chain) (result : ResultEvent) :
    ((∃ endpoint data, PrepayMsgHandler chain result = Outcome.posted endpoint data) ↔
      result.get "Prepay.sender" ≠ [] ∧ result.get "Prepay.purchased" ≠ [] ∧
        result.get "tx.hash" ≠ []) ∧
    (∀ sender senders purchased purchaseds txHash txs,
      result.get "Prepay.sender" = sender :: senders →
      result.get "Prepay.purchased" = purchased :: purchaseds →
      result.get "tx.hash" = txHash :: txs →
      PrepayMsgHandler chain result
        = Outcome.posted "/pp/prepaid" (Command.ReqPrepaid sender purchased txHash)) ∧
    ((result.get "Prepay.sender" = [] ∨ result.get "Prepay.purchased" = [] ∨
        result.get "tx.hash" = []) →
      PrepayMsgHandler chain result = Outcome.dropped) := by
  rcases hs : result.get "Prepay.sender" with _ | ⟨s, ss⟩ <;>
    rcases hp : result.get "Prepay.purchased" with _ | ⟨p, ps⟩ <;>
    rcases ht : result.get "tx.hash" with _ | ⟨t, ts⟩ <;>
    simp [PrepayMsgHandler, hs, hp, ht, index0]
  intro sender senders purchased purchaseds txHash txs h₁ _ h₂ _ h₃ _
  exact ⟨h₁, h₂, h₃⟩

/-- C10, at concrete events: a complete prepay event is forwarded with its first values, one
without `Prepay.purchased` is dropped. -/
theorem PrepayMsgHandler_spec_witness :
    PrepayMsgHandler exampleChain
        { Events := [("Prepay.sender", ["st1wallet", "st1other"]),
                     ("Prepay.purchased", ["100"]), ("tx.hash", ["ABC123"])] }
      = Outcome.posted "/pp/prepaid" (Command.ReqPrepaid "st1wallet" "100" "ABC123") ∧
    PrepayMsgHandler exampleChain
        { Events := [("Prepay.sender", ["st1wallet"]), ("tx.hash", ["ABC123"])] }
      = Outcome.dropped :=
  ⟨(PrepayMsgHandler_spec exampleChain _).2.1 "st1wallet" ["st1other"] "100" [] "ABC123" []
      (by decide) (by decide) (by decide),
   (PrepayMsgHandler_spec exampleChain _).2.2 (Or.inr (Or.inl (by decide)))⟩

/-! ## Further properties -/

/-- The placeholder handlers (`CreateIndexingNodeMsgHandler`,
`UnbondingIndexingNodeMsgHandler`, `RemoveIndexingNodeMsgHandler` and its alias
`CompleteUnbondingIndexingNodeMsgHandler`) forward nothing, whatever the event is. -/
theorem placeholder_handlers_drop (chain : Chain) (sp : Downstream) (result : ResultEvent) :
    Handler.CreateIndexingNodeMsgHandler.run chain result = Outcome.dropped ∧
    Handler.UnbondingIndexingNodeMsgHandler.run chain result = Outcome.dropped ∧
    Handler.RemoveIndexingNodeMsgHandler.run chain result = Outcome.dropped ∧
    Handler.CompleteUnbondingIndexingNodeMsgHandler.run chain result = Outcome.dropped ∧
    deliver chain sp Handler.CreateIndexingNodeMsgHandler result = [] ∧
    deliver chain sp Handler.UnbondingIndexingNodeMsgHandler result = [] ∧
    deliver chain sp Handler.RemoveIndexingNodeMsgHandler result = [] ∧
    deliver chain sp Handler.CompleteUnbondingIndexingNodeMsgHandler result = [] :=
  ⟨rfl, rfl, rfl, rfl, rfl, rfl, rfl, rfl⟩

/-- A handler fails with a runtime error only through an unchecked index: when it does,
`ozone_limit_changes` of its category is absent or empty or, for
`UnbondingResourceNodeMsgHandler`, `unbonding_mature_time` is. In particular the handlers
without such an index return normally on every event. -/
theorem panicked_only_if_unchecked_attribute_missing (chain : Chain) (h : Handler)
    (result : ResultEvent) :
    h.run chain result = Outcome.panicked →
      (∃ key, uncheckedOzoneKey h = some key ∧ result.get key = []) ∨
      (h = Handler.UnbondingResourceNodeMsgHandler ∧
        result.get "unbonding_resource_node.unbonding_mature_time" = []) := by
  cases h <;>
    simp only [Handler.run, Relay.CreateResourceNodeMsgHandler,
      Relay.UpdateResourceNodeStakeMsgHandler, Relay.UnbondingResourceNodeMsgHandler,
      Relay.RemoveResourceNodeMsgHandler, Relay.CompleteUnbondingResourceNodeMsgHandler,
      Relay.CreateIndexingNodeMsgHandler, Relay.UnbondingIndexingNodeMsgHandler,
      Relay.RemoveIndexingNodeMsgHandler, Relay.CompleteUnbondingIndexingNodeMsgHandler,
      Relay.UpdateIndexingNodeStakeMsgHandler,
      Relay.IndexingNodeVoteMsgHandler, Relay.PrepayMsgHandler, Relay.FileUploadMsgHandler,
      Relay.VolumeReportHandler, uncheckedOzoneKey, length_lt_one_iff, index0]
  all_goals repeat' split
  all_goals simp_all

/-- A handler without an unchecked index returns normally on every event. -/
theorem checked_handlers_return (chain : Chain) (result : ResultEvent) :
    Handler.RemoveResourceNodeMsgHandler.run chain result ≠ Outcome.panicked ∧
    Handler.CompleteUnbondingResourceNodeMsgHandler.run chain result ≠ Outcome.panicked ∧
    Handler.IndexingNodeVoteMsgHandler.run chain result ≠ Outcome.panicked ∧
    Handler.PrepayMsgHandler.run chain result ≠ Outcome.panicked ∧
    Handler.FileUploadMsgHandler.run chain result ≠ Outcome.panicked ∧
    Handler.VolumeReportHandler.run chain result ≠ Outcome.panicked := by
  refine ⟨?_, ?_, ?_, ?_, ?_, ?_⟩ <;> intro hp <;>
    have := panicked_only_if_unchecked_attribute_missing chain _ result hp <;>
    simp [uncheckedOzoneKey] at this

/-- The runtime error at a concrete event: `update_resource_node_stake` without
`ozone_limit_changes`. -/
theorem panicked_only_if_unchecked_attribute_missing_witness :
    Handler.UpdateResourceNodeStakeMsgHandler.run exampleChain
        { Events := [("update_resource_node_stake.network_address", ["st100ff"]),
                     ("update_resource_node_stake.incr_stake", ["true"]),
                     ("tx.hash", ["ABC123"])] } = Outcome.panicked ∧
    ((∃ key, uncheckedOzoneKey Handler.UpdateResourceNodeStakeMsgHandler = some key ∧
        ResultEvent.get
          { Events := [("update_resource_node_stake.network_address", ["st100ff"]),
                       ("update_resource_node_stake.incr_stake", ["true"]),
                       ("tx.hash", ["ABC123"])] } key = []) ∨
      (Handler.UpdateResourceNodeStakeMsgHandler = Handler.UnbondingResourceNodeMsgHandler ∧
        ResultEvent.get
          { Events := [("update_resource_node_stake.network_address", ["st100ff"]),
                       ("update_resource_node_stake.incr_stake", ["true"]),
                       ("tx.hash", ["ABC123"])] }
          "unbonding_resource_node.unbonding_mature_time" = [])) :=
  ⟨by decide,
   panicked_only_if_unchecked_attribute_missing exampleChain
     Handler.UpdateResourceNodeStakeMsgHandler _ (by decide)⟩

/-- The handler `FileUploadMsgHandler` calls `postToSP` if and only if `FileUpload.reporter`,
`FileUpload.uploader`, `FileUpload.file_hash` and `tx.hash` are all non-empty; the call is on
`/pp/uploaded` with the first values of the four attributes, unchanged. -/
theorem FileUploadMsgHandler_spec (chain : Chain) (result : ResultEvent) :
    ((∃ endpoint data, FileUploadMsgHandler chain result = Outcome.posted endpoint data) ↔
      result.get "FileUpload.reporter" ≠ [] ∧ result.get "FileUpload.uploader" ≠ [] ∧
        result.get "FileUpload.file_hash" ≠ [] ∧ result.get "tx.hash" ≠ []) ∧
    (∀ reporter rs uploader us fileHash fs txHash txs,
      result.get "FileUpload.reporter" = reporter :: rs →
      result.get "FileUpload.uploader" = uploader :: us →
      result.get "FileUpload.file_hash" = fileHash :: fs →
      result.get "tx.hash" = txHash :: txs →
      FileUploadMsgHandler chain result
        = Outcome.posted "/pp/uploaded"
            (Command.Uploaded reporter uploader fileHash txHash)) := by
  rcases hr : result.get "FileUpload.reporter" with _ | ⟨r, rs⟩ <;>
    rcases hu : result.get "FileUpload.uploader" with _ | ⟨u, us⟩ <;>
    rcases hf : result.get "FileUpload.file_hash" with _ | ⟨f, fs⟩ <;>
    rcases ht : result.get "tx.hash" with _ | ⟨t, ts⟩ <;>
    simp [FileUploadMsgHandler, hr, hu, hf, ht, index0]
  intro reporter _ uploader _ fileHash _ txHash _ h₁ _ h₂ _ h₃ _ h₄ _
  exact ⟨h₁, h₂, h₃, h₄⟩

/-- The file-upload handler at a concrete event. -/
theorem FileUploadMsgHandler_spec_witness :
    FileUploadMsgHandler exampleChain
        { Events := [("FileUpload.reporter", ["st1reporter"]),
                     ("FileUpload.uploader", ["st1uploader"]),
                     ("FileUpload.file_hash", ["v05ahm51"]), ("tx.hash", ["ABC123"])] }
      = Outcome.posted "/pp/uploaded"
          (Command.Uploaded "st1reporter" "st1uploader" "v05ahm51" "ABC123") :=
  (FileUploadMsgHandler_spec exampleChain _).2 "st1reporter" [] "st1uploader" [] "v05ahm51" []
    "ABC123" [] (by decide) (by decide) (by decide) (by decide)

/-- On a well-formed event (the address attribute decodes and re-encodes to `s`, every other
attribute of the category and `tx.hash` are non-empty) the two update-stake handlers and the
unbonding handler call `postToSP` once, on `/pp/updatedStake`, `/chain/updatedStake` and
`/pp/unbonding`, with `s` and the first values of the attributes. -/
theorem stake_handlers_well_formed (chain : Chain) (result : ResultEvent)
    (txHash : String) (txs : List String) (htx : result.get "tx.hash" = txHash :: txs) :
    (∀ v vs a s ozone os incr is,
      result.get "update_resource_node_stake.network_address" = v :: vs →
      chain.BechToAddress v = some a → chain.ToBech a chain.P2PAddressPrefix = some s →
      result.get "update_resource_node_stake.ozone_limit_changes" = ozone :: os →
      result.get "update_resource_node_stake.incr_stake" = incr :: is →
      UpdateResourceNodeStakeMsgHandler chain result
        = Outcome.posted "/pp/updatedStake" (Command.ReqUpdatedStakePP s ozone incr txHash)) ∧
    (∀ v vs a s ozone os incr is,
      result.get "update_indexing_node_stake.network_address" = v :: vs →
      chain.BechToAddress v = some a → chain.ToBech a chain.P2PAddressPrefix = some s →
      result.get "update_indexing_node_stake.ozone_limit_changes" = ozone :: os →
      result.get "update_indexing_node_stake.incr_stake" = incr :: is →
      UpdateIndexingNodeStakeMsgHandler chain result
        = Outcome.posted "/chain/updatedStake" (Command.ReqUpdatedStakeSP s ozone incr txHash)) ∧
    (∀ v vs a s ozone os mature ms,
      result.get "unbonding_resource_node.resource_node" = v :: vs →
      chain.BechToAddress v = some a → chain.ToBech a chain.P2PAddressPrefix = some s →
      result.get "unbonding_resource_node.ozone_limit_changes" = ozone :: os →
      result.get "unbonding_resource_node.unbonding_mature_time" = mature :: ms →
      UnbondingResourceNodeMsgHandler chain result
        = Outcome.posted "/pp/unbonding" (Command.ReqUnbondingPP s ozone mature txHash)) := by
  refine ⟨?_, ?_, ?_⟩
  · intro v vs a s ozone os incr is haddr hdec henc hozone hincr
    simp [UpdateResourceNodeStakeMsgHandler, getP2pAddressFromEvent,
      key_update_resource_node_stake, haddr, hdec, henc, hozone, hincr, htx, index0]
  · intro v vs a s ozone os incr is haddr hdec henc hozone hincr
    simp [UpdateIndexingNodeStakeMsgHandler, getP2pAddressFromEvent,
      key_update_indexing_node_stake, haddr, hdec, henc, hozone, hincr, htx, index0]
  · intro v vs a s ozone os mature ms haddr hdec henc hozone hmature
    simp [UnbondingResourceNodeMsgHandler, getP2pAddressFromEvent,
      key_unbonding_resource_node, haddr, hdec, henc, hozone, hmature, htx, index0]

/-- The unbonding handler at a concrete, complete event. -/
theorem stake_handlers_well_formed_witness :
    UnbondingResourceNodeMsgHandler exampleChain
        { Events := [("unbonding_resource_node.resource_node", ["st100ff"]),
                     ("unbonding_resource_node.ozone_limit_changes", ["100"]),
                     ("unbonding_resource_node.unbonding_mature_time", ["2021-06-01T00:00:00Z"]),
                     ("tx.hash", ["ABC123"])] }
      = Outcome.posted "/pp/unbonding"
          (Command.ReqUnbondingPP "stsdsp2p100ff" "100" "2021-06-01T00:00:00Z" "ABC123") :=
  (stake_handlers_well_formed exampleChain _ "ABC123" [] (by decide)).2.2 "st100ff" []
    [0x00, 0xff] "stsdsp2p100ff" "100" [] "2021-06-01T00:00:00Z" [] (by decide) (by decide)
    (by decide) (by decide) (by decide)

theorem fromHexChar_hextable (n : Nat) (h : n < 16) :
    fromHexChar (hextable.getD n '0') = some n := by
  interval_cases n <;> decide

theorem byte_of_digits (v : Byte) : (Fin.ofNat (v.val / 16 * 16 + v.val % 16) : Byte) = v := by
  apply Fin.ext
  have hv := v.isLt
  simp only [Fin.ofNat, Nat.div_add_mod']
  omega

theorem hexDecode_pair (a b : Char) (rest : List Char) (x y : Nat)
    (ha : fromHexChar a = some x) (hb : fromHexChar b = some y) :
    hexDecode (a :: b :: rest)
      = match hexDecode rest with
        | some bs => some (Fin.ofNat (x * 16 + y) :: bs)
        | none => none := by
  simp only [hexDecode, ha, hb]

/-- The hex codec round trip used for the public key: decoding the hex encoding of a byte
sequence gives the sequence back. -/
theorem hexDecodeString_hexEncodeToString (src : List Byte) :
    hexDecodeString (hexEncodeToString src) = some src := by
  unfold hexDecodeString hexEncodeToString
  induction src with
  | nil => rfl
  | cons v vs ih =>
    have hhi : v.val / 16 < 16 := by have := v.isLt; omega
    have hlo : v.val % 16 < 16 := Nat.mod_lt _ (by decide)
    rw [List.flatMap_cons]
    show hexDecode (_ :: _ :: vs.flatMap _) = _
    rw [hexDecode_pair _ _ _ _ _ (fromHexChar_hextable _ hhi) (fromHexChar_hextable _ hlo), ih,
      byte_of_digits]

/-- Whenever `CreateResourceNodeMsgHandler` forwards a command, it is a `ReqActivatedPP` on
`/pp/activated` whose pubkey field hex-decodes to the key that the amino decoder produced from
the hex-decoded first `pub_key` value of the event. -/
theorem CreateResourceNodeMsgHandler_pubkey_roundtrip (chain : Chain) (result : ResultEvent)
    (endpoint : String) (data : Command)
    (hposted : CreateResourceNodeMsgHandler chain result = Outcome.posted endpoint data) :
    ∃ pubkey rest raw key addr ozone txHash,
      result.get "create_resource_node.pub_key" = pubkey :: rest ∧
      hexDecodeString pubkey = some raw ∧
      chain.UnmarshalBinaryBare raw = some key ∧
      endpoint = "/pp/activated" ∧
      data = Command.ReqActivatedPP addr (hexEncodeToString key) ozone txHash ∧
      hexDecodeString (hexEncodeToString key) = some key := by
  unfold CreateResourceNodeMsgHandler at hposted
  split at hposted
  · exact absurd hposted (by simp)
  · rcases hpub : result.get "create_resource_node.pub_key" with _ | ⟨pubkey, rest⟩
    · simp [hpub] at hposted
    · simp only [hpub, index0, List.length_cons] at hposted
      split at hposted
      · omega
      · split at hposted
        · exact absurd hposted (by simp)
        · rename_i raw hraw
          split at hposted
          · exact absurd hposted (by simp)
          · rename_i key hkey
            split at hposted
            · exact absurd hposted (by simp)
            · split at hposted
              · exact absurd hposted (by simp)
              · split at hposted
                · exact absurd hposted (by simp)
                · simp only [Outcome.posted.injEq] at hposted
                  exact ⟨pubkey, rest, raw, key, _, _, _, rfl, hraw, hkey, hposted.1.symm,
                    hposted.2.symm, hexDecodeString_hexEncodeToString key⟩

/-- The pubkey round trip at the concrete event of the scenario. -/
theorem CreateResourceNodeMsgHandler_pubkey_roundtrip_witness :
    ∃ pubkey rest raw key addr ozone txHash,
      ResultEvent.get
        { Events := [("create_resource_node.network_address", ["st100ff"]),
                     ("create_resource_node.pub_key", ["1624DE64200102030405060708090a0b0c0d0e0f101112131415161718191a1b1c1d1e1f20"]),
                     ("create_resource_node.ozone_limit_changes", ["100"]),
                     ("tx.hash", ["ABC123"])] }
        "create_resource_node.pub_key" = pubkey :: rest ∧
      hexDecodeString pubkey = some raw ∧
      exampleChain.UnmarshalBinaryBare raw = some key ∧
      "/pp/activated" = "/pp/activated" ∧
      Command.ReqActivatedPP "stsdsp2p100ff" "0102030405060708090a0b0c0d0e0f101112131415161718191a1b1c1d1e1f20" "100" "ABC123"
        = Command.ReqActivatedPP addr (hexEncodeToString key) ozone txHash ∧
      hexDecodeString (hexEncodeToString key) = some key :=
  CreateResourceNodeMsgHandler_pubkey_roundtrip exampleChain _ _ _ (by decide)

end Relay
